import Mathlib

/-!
Verification of the OBO (On-Behalf-Of) authentication module
(`src/az_scout/obo_auth.py`) against its natural-language specification.

The module is shallowly embedded:
* Python strings are sequences of code points, modelled as `String` at the
  interface and `List Char` internally; all string primitives (`split`,
  `lower`, `strip`, slicing) are defined here by structural recursion so that
  the kernel can evaluate them on concrete inputs.
* The `ContextVar` request-token slot is modelled as a task-indexed store
  `Nat → Option String`: each logical task owns one slot, which is exactly
  the isolation contract of task-local storage.
* The external identity-exchange dependency (`OnBehalfOfCredential` plus
  `get_token`) is an abstract parameter of type
  `OboCredParams → String → Except String String`: it receives the credential
  parameters and the requested scope and either returns an issued token
  (`Except.ok`) or raises (`Except.error`).  The `try/except` blocks of the
  source correspond to matching on that result.
* `base64.urlsafe_b64decode` and `json.loads` (on UTF-8 bytes) are modelled
  executably below, following CPython semantics: non-alphabet characters are
  discarded before the padding check, trailing junk after complete padding is
  ignored, JSON is parsed with the strict grammar of `json.loads` (the model
  covers the ASCII fragment exercised here; `\uXXXX` escapes are decoded
  without surrogate-pair combination).
-/

/-- JSON values as produced by `json.loads`.  Numbers are kept exactly as a
decimal mantissa and a power-of-ten exponent (`mant * 10 ^ exp`), which is
enough to decide Python truthiness. -/
inductive Json where
  | null : Json
  | bool (b : Bool) : Json
  | num (mant : Int) (exp : Int) : Json
  | str (s : String) : Json
  | arr (elems : List Json) : Json
  | obj (fields : List (String × Json)) : Json
deriving Repr

/-- Python truthiness of a JSON value (`bool(v)` for the corresponding
Python object): `None`, `False`, `0`, `""`, `[]` and `{}` are falsy. -/
def Json.pyTruthy : Json → Bool
  | .null => false
  | .bool b => b
  | .num m _ => m != 0
  | .str s => s != ""
  | .arr l => !l.isEmpty
  | .obj l => !l.isEmpty

/-- Python `x or y` on optional values, where `none` models Python `None`:
returns `x` when `x` is truthy, else `y` (`y` is returned as-is, even when
falsy). -/
def pyOrJson (x y : Option Json) : Option Json :=
  match x with
  | some v => if v.pyTruthy then some v else y
  | none => y

/-- Python `x or y` for `str | None` values. -/
def pyOrStrOpt (x y : Option String) : Option String :=
  match x with
  | some s => if s != "" then some s else y
  | none => y

/-- Python `x or d` where `x : str | None` and `d : str`
(as in `tenant_id or OBO_TENANT_ID`). -/
def pyOrStr (x : Option String) (d : String) : String :=
  match x with
  | some s => if s != "" then s else d
  | none => d

/-- Python `s.split(sep)` for a one-character separator: splits at every
occurrence, keeping empty pieces (`"".split(".") == [""]`). -/
def pySplitOn (sep : Char) : List Char → List (List Char)
  | [] => [[]]
  | c :: rest =>
    match pySplitOn sep rest with
    | [] => [[c]]
    | g :: gs => if c = sep then [] :: g :: gs else (c :: g) :: gs

/-- ASCII lower-casing of one character, as `str.lower` acts on the ASCII
range (the only range exercised by HTTP header names and schemes here). -/
def pyCharLower (c : Char) : Char :=
  if 65 ≤ c.toNat ∧ c.toNat ≤ 90 then Char.ofNat (c.toNat + 32) else c

/-- `str.lower` on a code-point sequence (ASCII range). -/
def pyLower (cs : List Char) : List Char := cs.map pyCharLower

/-- Whitespace stripped by `str.strip()` (the ASCII whitespace characters). -/
def pyIsSpace (c : Char) : Bool :=
  c = ' ' || c = '\t' || c = '\n' || c = '\r' || c.toNat = 11 || c.toNat = 12

/-- Python `str.strip()`: remove leading and trailing whitespace. -/
def pyStrip (cs : List Char) : List Char :=
  ((cs.dropWhile pyIsSpace).reverse.dropWhile pyIsSpace).reverse

/-- List-prefix test, as used for `str.startswith`. -/
def listIsPrefix (p cs : List Char) : Bool :=
  match p, cs with
  | [], _ => true
  | _ :: _, [] => false
  | a :: p, b :: cs => a = b && listIsPrefix p cs

/-- Value of a standard base64-alphabet character. -/
def b64Val (c : Char) : Option Nat :=
  if 65 ≤ c.toNat ∧ c.toNat ≤ 90 then some (c.toNat - 65)
  else if 97 ≤ c.toNat ∧ c.toNat ≤ 122 then some (c.toNat - 97 + 26)
  else if 48 ≤ c.toNat ∧ c.toNat ≤ 57 then some (c.toNat - 48 + 52)
  else if c = '+' then some 62
  else if c = '/' then some 63
  else none

/-- Decode a list of complete base64 quads plus a final partial group of
2 or 3 sextets into bytes (the partial group arises from `=` padding). -/
def b64Quads : List Nat → List Nat
  | a :: b :: c :: d :: rest =>
    (a * 4 + b / 16) :: ((b % 16) * 16 + c / 4) :: ((c % 4) * 64 + d) :: b64Quads rest
  | [a, b] => [a * 4 + b / 16]
  | [a, b, c] => [a * 4 + b / 16, (b % 16) * 16 + c / 4]
  | _ => []

/-- `base64.urlsafe_b64decode` on a Python `str`, returning the decoded bytes
or `none` where CPython raises (`binascii.Error` on bad padding,
`UnicodeEncodeError` on non-ASCII input).  Following CPython: `-`/`_` are
mapped to `+`/`/`; characters outside the alphabet are discarded before the
padding check; a data-character count `d` with `d % 4 == 1` is an error;
`d % 4 ∈ {2, 3}` requires at least `4 - d % 4` padding characters; anything
after complete padding is ignored. -/
def urlsafe_b64decode (s : String) : Option (List Nat) :=
  let cs := s.toList
  if cs.all (fun c => c.toNat < 128) then
    let tr := cs.map (fun c => if c = '-' then '+' else if c = '_' then '/' else c)
    let kept := tr.filter (fun c => (b64Val c).isSome || c = '=')
    let data := kept.takeWhile (fun c => c ≠ '=')
    let pads := ((kept.drop data.length).takeWhile (fun c => c = '=')).length
    let vals := data.filterMap b64Val
    if vals.length % 4 = 0 then some (b64Quads vals)
    else if vals.length % 4 = 1 then none
    else if pads ≥ 4 - vals.length % 4 then some (b64Quads vals)
    else none
  else none

/-- Strict UTF-8 decoding of a byte sequence, `none` on any ill-formed
sequence (overlong forms, surrogates, truncation), as `bytes.decode("utf-8")`
raises there. -/
def utf8Decode : List Nat → Option (List Char)
  | [] => some []
  | b :: rest =>
    if b < 0x80 then
      (utf8Decode rest).map (fun cs => Char.ofNat b :: cs)
    else if 0xC2 ≤ b ∧ b ≤ 0xDF then
      match rest with
      | b2 :: rest2 =>
        if 0x80 ≤ b2 ∧ b2 ≤ 0xBF then
          (utf8Decode rest2).map (fun cs => Char.ofNat ((b - 0xC0) * 64 + (b2 - 0x80)) :: cs)
        else none
      | [] => none
    else if 0xE0 ≤ b ∧ b ≤ 0xEF then
      match rest with
      | b2 :: b3 :: rest2 =>
        let lo2 := if b = 0xE0 then 0xA0 else 0x80
        let hi2 := if b = 0xED then 0x9F else 0xBF
        if (lo2 ≤ b2 ∧ b2 ≤ hi2) ∧ (0x80 ≤ b3 ∧ b3 ≤ 0xBF) then
          (utf8Decode rest2).map
            (fun cs => Char.ofNat ((b - 0xE0) * 4096 + (b2 - 0x80) * 64 + (b3 - 0x80)) :: cs)
        else none
      | _ => none
    else if 0xF0 ≤ b ∧ b ≤ 0xF4 then
      match rest with
      | b2 :: b3 :: b4 :: rest2 =>
        let lo2 := if b = 0xF0 then 0x90 else 0x80
        let hi2 := if b = 0xF4 then 0x8F else 0xBF
        if (lo2 ≤ b2 ∧ b2 ≤ hi2) ∧ (0x80 ≤ b3 ∧ b3 ≤ 0xBF) ∧ (0x80 ≤ b4 ∧ b4 ≤ 0xBF) then
          (utf8Decode rest2).map
            (fun cs =>
              Char.ofNat ((b - 0xF0) * 262144 + (b2 - 0x80) * 4096 +
                (b3 - 0x80) * 64 + (b4 - 0x80)) :: cs)
        else none
      | _ => none
    else none

/-- JSON whitespace accepted between tokens by `json.loads`. -/
def skipWs (cs : List Char) : List Char :=
  cs.dropWhile (fun c => c = ' ' || c = '\t' || c = '\n' || c = '\r')

/-- Hexadecimal digit value. -/
def hexVal (c : Char) : Option Nat :=
  if 48 ≤ c.toNat ∧ c.toNat ≤ 57 then some (c.toNat - 48)
  else if 97 ≤ c.toNat ∧ c.toNat ≤ 102 then some (c.toNat - 97 + 10)
  else if 65 ≤ c.toNat ∧ c.toNat ≤ 70 then some (c.toNat - 65 + 10)
  else none

/-- ASCII decimal digit test. -/
def isDigitCh (c : Char) : Bool := 48 ≤ c.toNat && c.toNat ≤ 57

/-- Numeric value of a digit sequence. -/
def digitsToNat (ds : List Char) : Nat :=
  ds.foldl (fun acc c => acc * 10 + (c.toNat - 48)) 0

/-- Parse an optional exponent part `[eE][+-]?digits`; when absent or
ill-formed the input is left untouched (the regex group simply fails to
match). -/
def parseExp (cs : List Char) : Int × List Char :=
  match cs with
  | e :: r =>
    if e = 'e' ∨ e = 'E' then
      let p := match r with
        | '+' :: rr => ((1 : Int), rr)
        | '-' :: rr => ((-1 : Int), rr)
        | _ => ((1 : Int), r)
      let ds := p.2.takeWhile isDigitCh
      if ds.isEmpty then (0, cs)
      else (p.1 * (digitsToNat ds : Int), p.2.drop ds.length)
    else (0, cs)
  | [] => (0, cs)

/-- Parse a JSON number with the grammar of `json.loads`
(`-?(0|[1-9]\d*)(\.\d+)?([eE][+-]?\d+)?`, maximal match, leading zeros end
the int part after the `0`). -/
def parseNumber (cs : List Char) : Option (Json × List Char) :=
  let p0 := match cs with
    | '-' :: r => (true, r)
    | _ => (false, cs)
  let ds := p0.2.takeWhile isDigitCh
  match ds with
  | [] => none
  | d0 :: _ =>
    let p1 := if d0 = '0' then (['0'], p0.2.drop 1) else (ds, p0.2.drop ds.length)
    let p2 := match p1.2 with
      | '.' :: r =>
        let fs := r.takeWhile isDigitCh
        if fs.isEmpty then (([] : List Char), p1.2) else (fs, r.drop fs.length)
      | _ => (([] : List Char), p1.2)
    let p3 := parseExp p2.2
    let mantNat := digitsToNat (p1.1 ++ p2.1)
    let mant : Int := if p0.1 then -(mantNat : Int) else (mantNat : Int)
    some (.num mant (p3.1 - (p2.1.length : Int)), p3.2)

/-- Parse the body of a JSON string (after the opening quote), strict mode:
raw control characters are rejected, the JSON escapes and `\uXXXX` are
decoded.  Returns the accumulated code points and the remainder after the
closing quote. -/
def parseStringAux (acc : List Char) : List Char → Option (List Char × List Char)
  | [] => none
  | c :: rest =>
    if c = '"' then some (acc.reverse, rest)
    else if c = '\\' then
      match rest with
      | [] => none
      | e :: rest2 =>
        if e = '"' then parseStringAux ('"' :: acc) rest2
        else if e = '\\' then parseStringAux ('\\' :: acc) rest2
        else if e = '/' then parseStringAux ('/' :: acc) rest2
        else if e = 'b' then parseStringAux (Char.ofNat 8 :: acc) rest2
        else if e = 'f' then parseStringAux (Char.ofNat 12 :: acc) rest2
        else if e = 'n' then parseStringAux ('\n' :: acc) rest2
        else if e = 'r' then parseStringAux ('\r' :: acc) rest2
        else if e = 't' then parseStringAux ('\t' :: acc) rest2
        else if e = 'u' then
          match rest2 with
          | h1 :: h2 :: h3 :: h4 :: rest3 =>
            match hexVal h1, hexVal h2, hexVal h3, hexVal h4 with
            | some a, some b, some c2, some d =>
              parseStringAux (Char.ofNat (a * 4096 + b * 256 + c2 * 16 + d) :: acc) rest3
            | _, _, _, _ => none
          | _ => none
        else none
    else if c.toNat < 32 then none
    else parseStringAux (c :: acc) rest

mutual

/-- Parse one JSON value (fuel-bounded recursion; the fuel used below always
exceeds the input length, which bounds the nesting depth). -/
def parseValue : Nat → List Char → Option (Json × List Char)
  | 0, _ => none
  | fuel + 1, cs =>
    match skipWs cs with
    | 'n' :: 'u' :: 'l' :: 'l' :: rest => some (.null, rest)
    | 't' :: 'r' :: 'u' :: 'e' :: rest => some (.bool true, rest)
    | 'f' :: 'a' :: 'l' :: 's' :: 'e' :: rest => some (.bool false, rest)
    | '"' :: rest => (parseStringAux [] rest).map (fun p => (.str (String.mk p.1), p.2))
    | '[' :: rest =>
      (match skipWs rest with
       | ']' :: r2 => some (.arr [], r2)
       | cs2 =>
         match parseValue fuel cs2 with
         | some (v, r2) => parseArrTail fuel [v] r2
         | none => none)
    | '{' :: rest =>
      (match skipWs rest with
       | '}' :: r2 => some (.obj [], r2)
       | cs2 =>
         match parsePair fuel cs2 with
         | some (kv, r2) => parseObjTail fuel [kv] r2
         | none => none)
    | cs1 => parseNumber cs1

/-- Parse the remainder of an array after its first elements `acc`. -/
def parseArrTail : Nat → List Json → List Char → Option (Json × List Char)
  | 0, _, _ => none
  | fuel + 1, acc, cs =>
    match skipWs cs with
    | ',' :: r =>
      (match parseValue fuel r with
       | some (v, r2) => parseArrTail fuel (acc ++ [v]) r2
       | none => none)
    | ']' :: r => some (.arr acc, r)
    | _ => none

/-- Parse one `"key": value` member of an object. -/
def parsePair : Nat → List Char → Option ((String × Json) × List Char)
  | 0, _ => none
  | fuel + 1, cs =>
    match skipWs cs with
    | '"' :: r =>
      (match parseStringAux [] r with
       | some (k, r2) =>
         (match skipWs r2 with
          | ':' :: r3 =>
            (match parseValue fuel r3 with
             | some (v, r4) => some ((String.mk k, v), r4)
             | none => none)
          | _ => none)
       | none => none)
    | _ => none

/-- Parse the remainder of an object after its first members `acc`. -/
def parseObjTail : Nat → List (String × Json) → List Char → Option (Json × List Char)
  | 0, _, _ => none
  | fuel + 1, acc, cs =>
    match skipWs cs with
    | ',' :: r =>
      (match parsePair fuel r with
       | some (kv, r2) => parseObjTail fuel (acc ++ [kv]) r2
       | none => none)
    | '}' :: r => some (.obj acc, r)
    | _ => none

end

/-- `json.loads` applied to a byte sequence: decode as UTF-8, parse one JSON
document, reject trailing non-whitespace ("Extra data").  `none` models a
raised `ValueError`/`UnicodeDecodeError`. -/
def json_loads (bs : List Nat) : Option Json :=
  match utf8Decode bs with
  | none => none
  | some cs =>
    match parseValue (cs.length + 1) cs with
    | some (v, rest) => if (skipWs rest).isEmpty then some v else none
    | none => none

/-- Last-occurrence lookup in an association list: `json.loads` builds a
`dict` from the members in order, so a later duplicate key overwrites an
earlier one. -/
def lookupLast : List (String × Json) → String → Option Json
  | [], _ => none
  | (k, v) :: rest, key =>
    match lookupLast rest key with
    | some r => some r
    | none => if k = key then some v else none

/-- Python `dict.get(key)` on a parsed JSON object: a JSON `null` value is
the Python object `None`, indistinguishable from an absent key. -/
def pyDictGet (fields : List (String × Json)) (key : String) : Option Json :=
  match lookupLast fields key with
  | some Json.null => none
  | r => r

/-- Python truthiness of a `str | None` value. -/
def pyTruthyOptStr (x : Option String) : Bool :=
  match x with
  | some s => s != ""
  | none => false

/-- The OBO configuration read from the environment at import time
(`os.environ.get(..., "")`): an unset variable is the empty string, so each
field is a plain string. -/
structure OboConfig where
  OBO_CLIENT_ID : String
  OBO_CLIENT_SECRET : String
  OBO_TENANT_ID : String

/-- `ARM_SCOPE = "https://management.azure.com/.default"` — the fixed
resource scope used for every exchange. -/
def ARM_SCOPE : String := "https://management.azure.com/.default"

/-- `is_obo_configured`: `bool(OBO_CLIENT_ID and OBO_CLIENT_SECRET and
OBO_TENANT_ID)` — true exactly when all three strings are truthy
(non-empty). -/
def is_obo_configured (cfg : OboConfig) : Bool :=
  (cfg.OBO_CLIENT_ID != "") && (cfg.OBO_CLIENT_SECRET != "") && (cfg.OBO_TENANT_ID != "")

/-- The `ContextVar[str | None]` slot `_user_bearer_token`, modelled as
task-indexed storage: each concurrent logical task (asyncio task / request)
owns one independent slot, which is the isolation contract of `ContextVar`.
The default of every slot is `none`. -/
def Store : Type := Nat → Option String

/-- `get_user_token`: read the current task's slot. -/
def get_user_token (s : Store) (task : Nat) : Option String := s task

/-- `set_user_token`: write the current task's slot, leaving every other
task's slot untouched. -/
def set_user_token (s : Store) (task : Nat) (v : Option String) : Store :=
  fun u => if u = task then v else s u

/-- An interleaved sequence of `set_user_token` calls by concurrent tasks,
applied in program order. -/
def runOps (s : Store) (ops : List (Nat × Option String)) : Store :=
  ops.foldl (fun st op => set_user_token st op.1 op.2) s

/-- The parameters the module passes to `OnBehalfOfCredential(...)`. -/
structure OboCredParams where
  tenant_id : String
  client_id : String
  client_secret : String
  user_assertion : String

/-- The external identity-exchange dependency
(`OnBehalfOfCredential(...).get_token(scope)`): given credential parameters
and a scope it either returns an issued token (`Except.ok`) or raises
(`Except.error`). -/
def ExchangeDep : Type := OboCredParams → String → Except String String

/-- `_exchange_obo`: perform the OBO exchange with
`tenant_id or OBO_TENANT_ID`, the configured client credentials and the
user assertion, at the fixed `ARM_SCOPE`; on success build the header
mapping, on any raised exception (`except Exception`) return `None`. -/
def _exchange_obo (exchange : ExchangeDep) (cfg : OboConfig) (user_token : String)
    (tenant_id : Option String) : Option (List (String × String)) :=
  match exchange
      ⟨pyOrStr tenant_id cfg.OBO_TENANT_ID, cfg.OBO_CLIENT_ID, cfg.OBO_CLIENT_SECRET,
        user_token⟩ ARM_SCOPE with
  | Except.ok token =>
    some [("Authorization", "Bearer " ++ token), ("Content-Type", "application/json")]
  | Except.error _ => none

/-- `get_obo_headers`: read the current task's token; on
`not user_token or not is_obo_configured()` return `None`, else exchange. -/
def get_obo_headers (exchange : ExchangeDep) (cfg : OboConfig) (store : Store) (task : Nat)
    (tenant_id : Option String) : Option (List (String × String)) :=
  match get_user_token store task with
  | some user_token =>
    if user_token != "" && is_obo_configured cfg then
      _exchange_obo exchange cfg user_token tenant_id
    else none
  | none => none

/-- `check_obo_tenant_auth`: run the exchange for the given token and tenant
and report success as a boolean, with every raised exception mapped to
`False`. -/
def check_obo_tenant_auth (exchange : ExchangeDep) (cfg : OboConfig)
    (user_token tenant_id : String) : Bool :=
  match exchange
      ⟨tenant_id, cfg.OBO_CLIENT_ID, cfg.OBO_CLIENT_SECRET, user_token⟩ ARM_SCOPE with
  | Except.ok _ => true
  | Except.error _ => false

/-- Process state threaded through the boundary components: the per-task
token slots and the (read-only) delegation configuration. -/
structure SrvState where
  tokens : Store
  cfg : OboConfig

/-- `check_obo_tenant_auth` as a state transformer on the process state: the
source reads neither the token context nor mutates anything, so the state
component is passed through. -/
def check_obo_tenant_auth_run (exchange : ExchangeDep) (st : SrvState)
    (user_token tenant_id : String) : Bool × SrvState :=
  (check_obo_tenant_auth exchange st.cfg user_token tenant_id, st)

/-- `get_user_tenant_id`: read the current task's token and extract a tenant
hint from its JWT payload — `split(".")[1]`, restore padding, base64url
decode, `json.loads`, then `claims.get("tid") or claims.get("tenant_id")`;
every raised exception (`IndexError`, `binascii.Error`, `ValueError`,
`AttributeError` on a non-object document) is mapped to `None`. -/
def get_user_tenant_id (store : Store) (task : Nat) : Option Json :=
  match get_user_token store task with
  | none => none
  | some user_token =>
    if user_token != "" then
      match (pySplitOn '.' user_token.toList)[1]? with
      | none => none
      | some payload =>
        match urlsafe_b64decode
            (String.mk (payload ++ List.replicate ((4 - payload.length % 4) % 4) '=')) with
        | none => none
        | some bs =>
          match json_loads bs with
          | some (Json.obj fields) => pyOrJson (pyDictGet fields "tid") (pyDictGet fields "tenant_id")
          | some _ => none
          | none => none
    else none

namespace OBOMiddleware

/-- The header-scan loop of `OBOMiddleware._extract_token`: the pair carries
the `easyauth_token` and `auth_token` variables; each platform header
overwrites the first, each `Authorization` header whose lower-cased value
starts with `"bearer "` overwrites the second with the stripped remainder. -/
def extractLoop : List (String × String) → Option String × Option String →
    Option String × Option String
  | [], acc => acc
  | (name, value) :: rest, acc =>
    let header_name := String.mk (pyLower name.toList)
    if header_name = "x-ms-token-aad-access-token" then
      extractLoop rest (some value, acc.2)
    else if header_name = "authorization" then
      if listIsPrefix "bearer ".toList (pyLower value.toList) then
        extractLoop rest (acc.1, some (String.mk (pyStrip (value.toList.drop 7))))
      else extractLoop rest acc
    else extractLoop rest acc

/-- `OBOMiddleware._extract_token`: scan the headers, then return
`easyauth_token or auth_token`. -/
def _extract_token (headers : List (String × String)) : Option String :=
  let r := extractLoop headers (none, none)
  pyOrStrOpt r.1 r.2

end OBOMiddleware

/-- An ASGI scope, reduced to the fields the middleware reads. -/
structure AsgiScope where
  type : String
  headers : List (String × String)

/-- `OBOMiddleware.__call__` as a state transformer: for an `"http"` scope it
stores the extracted token (possibly `none`) in the calling task's slot and
then invokes the wrapped app; for any other scope it invokes the wrapped app
directly.  The returned state is the one in which `self.app` runs, and the
boolean records that the wrapped app is always invoked. -/
def OBOMiddleware.call (scope : AsgiScope) (task : Nat) (st : SrvState) : SrvState × Bool :=
  if scope.type = "http" then
    ({ st with tokens := set_user_token st.tokens task (OBOMiddleware._extract_token scope.headers) },
      true)
  else (st, true)

/-- Modelled from the spec (claim C6's reference algorithm, as literally
stated): split on `.`, take the second segment, restore base64url padding,
decode, parse as JSON, and return the value of claim `tid` if the key is
present, else `tenant_id`, else absent; malformed input yields absent. -/
def extractTenantHintClaim (token : String) : Option Json :=
  match (pySplitOn '.' token.toList)[1]? with
  | none => none
  | some payload =>
    match urlsafe_b64decode
        (String.mk (payload ++ List.replicate ((4 - payload.length % 4) % 4) '=')) with
    | none => none
    | some bs =>
      match json_loads bs with
      | some (Json.obj fields) =>
        (match lookupLast fields "tid" with
         | some v => some v
         | none => lookupLast fields "tenant_id")
      | _ => none

/-- Modelled from the spec, amended: as `extractTenantHintClaim`, except that
a present but falsy `tid` claim (empty string, `null`, `0`, `false`) falls
through to `tenant_id`, matching the `or` in the source. -/
def extractTenantHintTruthy (token : String) : Option Json :=
  match (pySplitOn '.' token.toList)[1]? with
  | none => none
  | some payload =>
    match urlsafe_b64decode
        (String.mk (payload ++ List.replicate ((4 - payload.length % 4) % 4) '=')) with
    | none => none
    | some bs =>
      match json_loads bs with
      | some (Json.obj fields) =>
        (match pyDictGet fields "tid" with
         | some v => if v.pyTruthy then some v else pyDictGet fields "tenant_id"
         | none => pyDictGet fields "tenant_id")
      | _ => none

/-- Modelled from the spec (claim C7): the value of the last
`X-MS-TOKEN-AAD-ACCESS-TOKEN` header (case-insensitive name match), if any. -/
def lastXmsToken : List (String × String) → Option String
  | [] => none
  | (name, value) :: rest =>
    match lastXmsToken rest with
    | some v => some v
    | none =>
      if String.mk (pyLower name.toList) = "x-ms-token-aad-access-token" then some value
      else none

/-- Modelled from the spec (claim C7): the stripped remainder of the last
`Authorization` header whose value has the case-insensitive `"bearer "`
scheme, if any. -/
def lastBearerToken : List (String × String) → Option String
  | [] => none
  | (name, value) :: rest =>
    match lastBearerToken rest with
    | some v => some v
    | none =>
      if String.mk (pyLower name.toList) = "authorization" then
        if listIsPrefix "bearer ".toList (pyLower value.toList) then
          some (String.mk (pyStrip (value.toList.drop 7)))
        else none
      else none

theorem runOps_untouched (a : Nat) :
    ∀ (ops : List (Nat × Option String)) (s : Store),
      (∀ op ∈ ops, op.1 ≠ a) →
      get_user_token (runOps s ops) a = get_user_token s a := by
  intro ops
  induction ops with
  | nil => intro s _; rfl
  | cons op t ih =>
    intro s h
    have h1 : op.1 ≠ a := h op (List.mem_cons_self op t)
    have h2 : ∀ p ∈ t, p.1 ≠ a := fun p hp => h p (List.mem_cons_of_mem op hp)
    show get_user_token (runOps (set_user_token s op.1 op.2) t) a = get_user_token s a
    rw [ih _ h2]
    show (if a = op.1 then op.2 else s a) = s a
    rw [if_neg (fun e => h1 e.symm)]

/-- C1: request token isolation.  A read of the slot of task `a` after `a`
set it to `ta` returns `ta`, however many `set_user_token` calls other tasks
interleave afterwards or concurrently; and a `set_user_token` by one task
has no effect on any other task's slot. -/
theorem c1_request_token_isolation :
    (∀ (s : Store) (ops : List (Nat × Option String)) (a : Nat) (ta : Option String),
      (∀ op ∈ ops, op.1 ≠ a) →
      get_user_token (runOps (set_user_token s a ta) ops) a = ta) ∧
    (∀ (s : Store) (a b : Nat) (v : Option String), a ≠ b →
      get_user_token (set_user_token s a v) b = get_user_token s b) := by
  constructor
  · intro s ops a ta h
    rw [runOps_untouched a ops _ h]
    show (if a = a then ta else s a) = ta
    rw [if_pos rfl]
  · intro s a b v hab
    show (if b = a then v else s b) = s b
    rw [if_neg (fun e => hab e.symm)]

/-- Witness for C1: task 0 sets `"ta"`, task 1 then sets `"tb"`; task 0
still reads `"ta"`, and task 1's slot was unaffected by task 0's set. -/
theorem c1_request_token_isolation_witness :
    get_user_token (runOps (set_user_token (fun _ => none) 0 (some "ta")) [(1, some "tb")]) 0 =
      some "ta" ∧
    get_user_token (set_user_token (fun _ => none) 0 (some "ta")) 1 = none :=
  ⟨c1_request_token_isolation.1 (fun _ => none) [(1, some "tb")] 0 (some "ta") (by decide),
    c1_request_token_isolation.2 (fun _ => none) 0 1 (some "ta") (by decide)⟩

/-- C2: when the context slot holds no token, `get_obo_headers` returns
`None` for every configuration, tenant override and exchange dependency —
in particular even for a dependency that would succeed, so no exchange is
attempted. -/
theorem c2_absent_token_returns_none :
    ∀ (cfg : OboConfig) (store : Store) (task : Nat) (tenant_id : Option String),
      get_user_token store task = none →
      ∀ exchange : ExchangeDep, get_obo_headers exchange cfg store task tenant_id = none := by
  intro cfg store task ov h exchange
  unfold get_obo_headers
  rw [h]

/-- Witness for C2: fully configured, always-succeeding dependency, empty
slot — the result is still `None`. -/
theorem c2_absent_token_returns_none_witness :
    get_obo_headers (fun _ _ => Except.ok "issued") ⟨"cid", "sec", "ten"⟩ (fun _ => none) 0 none =
      none :=
  c2_absent_token_returns_none ⟨"cid", "sec", "ten"⟩ (fun _ => none) 0 none rfl
    (fun _ _ => Except.ok "issued")

/-- C3: configured, token present, but the exchange dependency raises at the
parameters the module passes it — `get_obo_headers` returns `None` (the
`except Exception` branch), never propagating the failure. -/
theorem c3_exchange_failure_returns_none :
    ∀ (exchange : ExchangeDep) (cfg : OboConfig) (store : Store) (task : Nat)
      (user_token : String) (tenant_id : Option String) (msg : String),
      get_user_token store task = some user_token →
      is_obo_configured cfg = true →
      exchange
          ⟨pyOrStr tenant_id cfg.OBO_TENANT_ID, cfg.OBO_CLIENT_ID, cfg.OBO_CLIENT_SECRET,
            user_token⟩ ARM_SCOPE = Except.error msg →
      get_obo_headers exchange cfg store task tenant_id = none := by
  intro e cfg store task t ov msg htok hcfg hex
  simp only [get_obo_headers, htok]
  cases ht : (t != "") with
  | false => simp [ht]
  | true => simp [ht, hcfg, _exchange_obo, hex]

/-- Witness for C3: a dependency that always raises yields `None`. -/
theorem c3_exchange_failure_returns_none_witness :
    get_obo_headers (fun _ _ => Except.error "network down") ⟨"cid", "sec", "t0"⟩
      (fun _ => some "user-token") 0 none = none :=
  c3_exchange_failure_returns_none (fun _ _ => Except.error "network down") ⟨"cid", "sec", "t0"⟩
    (fun _ => some "user-token") 0 "user-token" none "network down" rfl (by decide) rfl

/-- C5: `is_obo_configured` is true exactly when all three configuration
strings are non-empty (an unset environment variable is the empty string);
it is a pure function of the configuration. -/
theorem c5_is_obo_configured_iff :
    ∀ cfg : OboConfig,
      is_obo_configured cfg = true ↔
        (cfg.OBO_CLIENT_ID ≠ "" ∧ cfg.OBO_CLIENT_SECRET ≠ "" ∧ cfg.OBO_TENANT_ID ≠ "") := by
  intro cfg
  simp [is_obo_configured, Bool.and_eq_true, bne_iff_ne, and_assoc]

/-- Witness for C5: all three set gives `true`; an empty client id gives
`false`. -/
theorem c5_is_obo_configured_iff_witness :
    is_obo_configured ⟨"app-id", "secret", "tenant"⟩ = true ∧
    is_obo_configured ⟨"", "secret", "tenant"⟩ = false :=
  ⟨(c5_is_obo_configured_iff ⟨"app-id", "secret", "tenant"⟩).mpr (by decide),
    Bool.eq_false_iff.mpr
      (fun h => ((c5_is_obo_configured_iff ⟨"", "secret", "tenant"⟩).mp h).1 rfl)⟩

/-- C10: an empty-string token in the context slot is treated exactly like
an absent one (`if not user_token` is a truthiness test): `get_obo_headers`
returns `None` and consults no exchange dependency, even when fully
configured. -/
theorem c10_empty_token_treated_as_absent :
    ∀ (exchange : ExchangeDep) (cfg : OboConfig) (store : Store) (task : Nat)
      (tenant_id : Option String),
      is_obo_configured cfg = true →
      get_user_token store task = some "" →
      get_obo_headers exchange cfg store task tenant_id = none := by
  intro e cfg store task ov _ h
  simp only [get_obo_headers, h]
  rfl

/-- Witness for C10: fully configured, always-succeeding dependency, empty
string in the slot — the result is `None`. -/
theorem c10_empty_token_treated_as_absent_witness :
    get_obo_headers (fun _ _ => Except.ok "issued") ⟨"cid", "sec", "ten"⟩ (fun _ => some "") 0
      none = none :=
  c10_empty_token_treated_as_absent (fun _ _ => Except.ok "issued") ⟨"cid", "sec", "ten"⟩
    (fun _ => some "") 0 none (by decide) rfl

/-- C4 (counterexample to the claim as stated): with delegation configured
(default tenant `"t0"`), a token present, and the override provided as the
empty string, a dependency that succeeds exactly at tenant `""` — the tenant
the claim says is passed — is never consulted there: the module resolves the
tenant with `tenant_id or OBO_TENANT_ID`, calls the dependency at `"t0"`,
and returns `None` instead of the success headers. -/
theorem c4_counterexample :
    ((fun p _ => if p.tenant_id = "" then Except.ok "issued" else Except.error "rejected" :
        ExchangeDep) ⟨"", "cid", "sec", "tok"⟩ ARM_SCOPE = Except.ok "issued") ∧
    get_obo_headers
        (fun p _ => if p.tenant_id = "" then Except.ok "issued" else Except.error "rejected")
        ⟨"cid", "sec", "t0"⟩ (fun _ => some "tok") 0 (some "") = none :=
  ⟨rfl, rfl⟩

/-- C4 (amended): when configured and a non-empty token is present, if the
exchange dependency returns an issued token at the parameters
(tenant = the override if provided and non-empty, else the configured
default; the configured client id and secret; the user token) with the fixed
`ARM_SCOPE`, the result is exactly the two-entry header mapping.  Moreover
the result depends only on the dependency's value at that single
parameter/scope point: two dependencies that agree there give identical
results, so the exchange is invoked with exactly those arguments and the
scope is never parameterized per call. -/
theorem c4_success_postcondition :
    (∀ (exchange : ExchangeDep) (cfg : OboConfig) (store : Store) (task : Nat)
        (user_token : String) (tenant_id : Option String) (issued : String),
      get_user_token store task = some user_token →
      user_token ≠ "" →
      is_obo_configured cfg = true →
      exchange
          ⟨pyOrStr tenant_id cfg.OBO_TENANT_ID, cfg.OBO_CLIENT_ID, cfg.OBO_CLIENT_SECRET,
            user_token⟩ ARM_SCOPE = Except.ok issued →
      get_obo_headers exchange cfg store task tenant_id =
        some [("Authorization", "Bearer " ++ issued), ("Content-Type", "application/json")]) ∧
    (∀ (e1 e2 : ExchangeDep) (cfg : OboConfig) (store : Store) (task : Nat)
        (user_token : String) (tenant_id : Option String),
      get_user_token store task = some user_token →
      e1 ⟨pyOrStr tenant_id cfg.OBO_TENANT_ID, cfg.OBO_CLIENT_ID, cfg.OBO_CLIENT_SECRET,
          user_token⟩ ARM_SCOPE =
        e2 ⟨pyOrStr tenant_id cfg.OBO_TENANT_ID, cfg.OBO_CLIENT_ID, cfg.OBO_CLIENT_SECRET,
            user_token⟩ ARM_SCOPE →
      get_obo_headers e1 cfg store task tenant_id = get_obo_headers e2 cfg store task tenant_id) := by
  constructor
  · intro e cfg store task t ov issued htok ht hcfg hex
    simp only [get_obo_headers, htok]
    have ht' : (t != "") = true := bne_iff_ne.mpr ht
    simp [ht', hcfg, _exchange_obo, hex]
  · intro e1 e2 cfg store task t ov htok hagree
    simp only [get_obo_headers, htok]
    cases hcond : (t != "" && is_obo_configured cfg) with
    | false => simp [hcond]
    | true =>
      simp only [hcond, if_true]
      unfold _exchange_obo
      rw [hagree]

/-- Witness for C4 (amended): a successful exchange yields the exact header
mapping, and two dependencies agreeing at the consulted point give the same
result. -/
theorem c4_success_postcondition_witness :
    get_obo_headers (fun _ _ => Except.ok "issued-xyz") ⟨"cid", "sec", "t0"⟩
        (fun _ => some "tok") 0 (some "tenant1") =
      some [("Authorization", "Bearer issued-xyz"), ("Content-Type", "application/json")] ∧
    get_obo_headers (fun p _ => Except.ok p.tenant_id) ⟨"cid", "sec", "t0"⟩
        (fun _ => some "tok") 0 none =
      get_obo_headers (fun _ _ => Except.ok "t0") ⟨"cid", "sec", "t0"⟩
        (fun _ => some "tok") 0 none :=
  ⟨c4_success_postcondition.1 (fun _ _ => Except.ok "issued-xyz") ⟨"cid", "sec", "t0"⟩
      (fun _ => some "tok") 0 "tok" (some "tenant1") "issued-xyz" rfl (by decide) (by decide) rfl,
    c4_success_postcondition.2 (fun p _ => Except.ok p.tenant_id) (fun _ _ => Except.ok "t0")
      ⟨"cid", "sec", "t0"⟩ (fun _ => some "tok") 0 "tok" none rfl rfl⟩

/-- C8: for every `"http"` scope the middleware stores the extracted value
(including an explicit `none`) in the calling task's slot and invokes the
wrapped app; for every non-http scope it invokes the wrapped app with the
state untouched; and on http it changes nothing besides the calling task's
slot (other slots and the configuration are preserved). -/
theorem c8_middleware_set_before_app :
    (∀ (headers : List (String × String)) (task : Nat) (st : SrvState),
      OBOMiddleware.call ⟨"http", headers⟩ task st =
        ({ st with
            tokens := set_user_token st.tokens task (OBOMiddleware._extract_token headers) },
          true)) ∧
    (∀ (scope : AsgiScope) (task : Nat) (st : SrvState),
      scope.type ≠ "http" → OBOMiddleware.call scope task st = (st, true)) ∧
    (∀ (headers : List (String × String)) (task u : Nat) (st : SrvState), u ≠ task →
      (OBOMiddleware.call ⟨"http", headers⟩ task st).1.tokens u = st.tokens u ∧
      (OBOMiddleware.call ⟨"http", headers⟩ task st).1.cfg = st.cfg) := by
  refine ⟨fun headers task st => rfl, fun scope task st h => ?_, fun headers task u st hu => ?_⟩
  · simp [OBOMiddleware.call, h]
  · constructor
    · show (if u = task then OBOMiddleware._extract_token headers else st.tokens u) = st.tokens u
      rw [if_neg hu]
    · rfl

/-- Witness for C8: a `"lifespan"` event passes through with the state
untouched, and an http request leaves other tasks' slots unchanged. -/
theorem c8_middleware_set_before_app_witness :
    OBOMiddleware.call ⟨"lifespan", []⟩ 0 ⟨fun _ => some "stale", ⟨"cid", "sec", "t0"⟩⟩ =
      (⟨fun _ => some "stale", ⟨"cid", "sec", "t0"⟩⟩, true) ∧
    (OBOMiddleware.call ⟨"http", [("Authorization", "Bearer T2")]⟩ 0
        ⟨fun _ => some "stale", ⟨"cid", "sec", "t0"⟩⟩).1.tokens 1 = some "stale" :=
  ⟨c8_middleware_set_before_app.2.1 ⟨"lifespan", []⟩ 0 _ (by decide),
    (c8_middleware_set_before_app.2.2 [("Authorization", "Bearer T2")] 0 1 _ (by decide)).1⟩

/-- C9: `check_obo_tenant_auth` reports exchange success as `True` and maps
every raised exception to `False`, and as a state transformer it leaves the
token context and the configuration exactly as they were. -/
theorem c9_check_obo_tenant_auth_contract :
    ∀ (exchange : ExchangeDep) (st : SrvState) (user_token tenant_id : String),
      (check_obo_tenant_auth_run exchange st user_token tenant_id).2 = st ∧
      (∀ issued : String,
        exchange ⟨tenant_id, st.cfg.OBO_CLIENT_ID, st.cfg.OBO_CLIENT_SECRET, user_token⟩
            ARM_SCOPE = Except.ok issued →
        (check_obo_tenant_auth_run exchange st user_token tenant_id).1 = true) ∧
      (∀ msg : String,
        exchange ⟨tenant_id, st.cfg.OBO_CLIENT_ID, st.cfg.OBO_CLIENT_SECRET, user_token⟩
            ARM_SCOPE = Except.error msg →
        (check_obo_tenant_auth_run exchange st user_token tenant_id).1 = false) := by
  intro e st tok ten
  refine ⟨rfl, fun issued hx => ?_, fun msg hx => ?_⟩ <;>
    simp [check_obo_tenant_auth_run, check_obo_tenant_auth, hx]

/-- Witness for C9: a succeeding dependency gives `true`, a raising one
gives `false`, and the state is returned unchanged. -/
theorem c9_check_obo_tenant_auth_contract_witness :
    (check_obo_tenant_auth_run (fun _ _ => Except.ok "issued")
        ⟨fun _ => some "tok", ⟨"cid", "sec", "t0"⟩⟩ "tok" "tenant1").1 = true ∧
    (check_obo_tenant_auth_run (fun _ _ => Except.error "boom")
        ⟨fun _ => some "tok", ⟨"cid", "sec", "t0"⟩⟩ "tok" "tenant1").1 = false ∧
    (check_obo_tenant_auth_run (fun _ _ => Except.error "boom")
        ⟨fun _ => some "tok", ⟨"cid", "sec", "t0"⟩⟩ "tok" "tenant1").2 =
      ⟨fun _ => some "tok", ⟨"cid", "sec", "t0"⟩⟩ :=
  ⟨(c9_check_obo_tenant_auth_contract (fun _ _ => Except.ok "issued")
      ⟨fun _ => some "tok", ⟨"cid", "sec", "t0"⟩⟩ "tok" "tenant1").2.1 "issued" rfl,
    (c9_check_obo_tenant_auth_contract (fun _ _ => Except.error "boom")
      ⟨fun _ => some "tok", ⟨"cid", "sec", "t0"⟩⟩ "tok" "tenant1").2.2 "boom" rfl,
    (c9_check_obo_tenant_auth_contract (fun _ _ => Except.error "boom")
      ⟨fun _ => some "tok", ⟨"cid", "sec", "t0"⟩⟩ "tok" "tenant1").1⟩

/-- C6 (counterexample to the claim as stated): on a token whose payload
decodes to `{"tid": "", "tenant_id": "xyz"}`, the claim's reference
algorithm returns the present `tid` value `""`, but the module's
`claims.get("tid") or claims.get("tenant_id")` falls through the falsy `tid`
and returns `"xyz"`. -/
theorem c6_counterexample :
    get_user_tenant_id (fun _ => some "h.eyJ0aWQiOiIiLCJ0ZW5hbnRfaWQiOiJ4eXoifQ.s") 0 =
      some (Json.str "xyz") ∧
    extractTenantHintClaim "h.eyJ0aWQiOiIiLCJ0ZW5hbnRfaWQiOiJ4eXoifQ.s" = some (Json.str "") ∧
    Json.str "xyz" ≠ Json.str "" :=
  ⟨rfl, rfl, by intro h; injection h with h2; exact absurd h2 (by decide)⟩

/-- C6 (amended): the claim extractor follows the reference algorithm with
the presence test weakened to Python truthiness — split on `.`, take the
second segment, restore base64url padding, base64url-decode, parse as JSON,
return `tid` if present and truthy else `tenant_id` (itself via `dict.get`) —
and on every malformed input (too few segments, invalid base64, invalid
JSON, non-object document, missing claims) the total function yields absent;
no exception reaches the caller. -/
theorem c6_extractor_follows_truthy_algorithm :
    ∀ (store : Store) (task : Nat),
      get_user_tenant_id store task =
        (match get_user_token store task with
         | some user_token => extractTenantHintTruthy user_token
         | none => none) := by
  intro store task
  cases htok : get_user_token store task with
  | none => simp [get_user_tenant_id, htok]
  | some t =>
    simp only [get_user_tenant_id, htok]
    cases he : (t != "") with
    | false =>
      have ht : t = "" := by simpa using he
      subst ht
      rfl
    | true =>
      simp only [he, if_true]
      unfold extractTenantHintTruthy
      cases hp : (pySplitOn '.' t.toList)[1]? with
      | none => rfl
      | some payload =>
        dsimp only
        cases hb : urlsafe_b64decode
            (String.mk (payload ++ List.replicate ((4 - payload.length % 4) % 4) '=')) with
        | none => rfl
        | some bs =>
          dsimp only
          cases hj : json_loads bs with
          | none => rfl
          | some j =>
            cases j with
            | obj fields =>
              dsimp only
              cases pyDictGet fields "tid" with
              | none => rfl
              | some v => rfl
            | null => rfl
            | bool b => rfl
            | num m e => rfl
            | str s => rfl
            | arr l => rfl

theorem extractLoop_eq :
    ∀ (headers : List (String × String)) (ea au : Option String),
      OBOMiddleware.extractLoop headers (ea, au) =
        ((lastXmsToken headers).or ea, (lastBearerToken headers).or au) := by
  intro headers
  induction headers with
  | nil => intro ea au; rfl
  | cons hd t ih =>
    intro ea au
    obtain ⟨name, value⟩ := hd
    simp only [OBOMiddleware.extractLoop, lastXmsToken, lastBearerToken]
    by_cases hx : String.mk (pyLower name.toList) = "x-ms-token-aad-access-token"
    · have hna : ¬String.mk (pyLower name.toList) = "authorization" := by rw [hx]; decide
      rw [if_pos hx, if_pos hx, if_neg hna, ih]
      cases lastXmsToken t <;> cases lastBearerToken t <;> simp [Option.or]
    · by_cases ha : String.mk (pyLower name.toList) = "authorization"
      · by_cases hz : listIsPrefix "bearer ".toList (pyLower value.toList) = true
        · rw [if_neg hx, if_pos ha, if_neg hx, if_pos ha, if_pos hz, if_pos hz, ih]
          cases lastXmsToken t <;> cases lastBearerToken t <;> simp [Option.or]
        · rw [if_neg hx, if_pos ha, if_neg hx, if_pos ha, if_neg hz, if_neg hz, ih]
          cases lastXmsToken t <;> cases lastBearerToken t <;> simp [Option.or]
      · rw [if_neg hx, if_neg ha, if_neg hx, if_neg ha, ih]
        cases lastXmsToken t <;> cases lastBearerToken t <;> simp [Option.or]

/-- C7 (amended): extraction precedence with presence read as Python
truthiness — the value of the last platform header wins when it is
non-empty; otherwise the stripped remainder of the last case-insensitive
`Bearer` Authorization header; otherwise absent. -/
theorem c7_extraction_precedence :
    ∀ headers : List (String × String),
      OBOMiddleware._extract_token headers =
        (match lastXmsToken headers with
         | some v => if v != "" then some v else lastBearerToken headers
         | none => lastBearerToken headers) := by
  intro hs
  show pyOrStrOpt (OBOMiddleware.extractLoop hs (none, none)).1
      (OBOMiddleware.extractLoop hs (none, none)).2 = _
  rw [extractLoop_eq]
  cases lastXmsToken hs <;> cases lastBearerToken hs <;> simp [pyOrStrOpt, Option.or]

/-- C7 (counterexample to the claim as stated): the platform header is
present (with value `""`) together with `Authorization: Bearer T2`, yet the
extracted token is `"T2"`, not the platform header's value — the final
`easyauth_token or auth_token` is a truthiness test, not a presence test. -/
theorem c7_counterexample :
    lastXmsToken [("X-MS-TOKEN-AAD-ACCESS-TOKEN", ""), ("Authorization", "Bearer T2")] =
      some "" ∧
    OBOMiddleware._extract_token
        [("X-MS-TOKEN-AAD-ACCESS-TOKEN", ""), ("Authorization", "Bearer T2")] = some "T2" ∧
    (some "T2" : Option String) ≠ some "" :=
  ⟨rfl, rfl, by decide⟩
